import Mathlib

/-!
Verification development for the gimmie-gift-service repository.

The definitions below are a shallow embedding of the TypeScript sources:
  * `src/src/services/recommendation.service.ts` (RecommendationService and
    LearningService),
  * `src/src/services/ai.service.ts` (AIService),
  * `src/src/schemas/recommendation.schema.ts` together with the extended
    schema variant (`src/unnamed/part_003`).

Modelling conventions:
  * JavaScript numbers that carry prices/budgets are modelled as `ℚ`
    (the values handled by the service are decimal amounts; the boundary
    comparisons 80/100 are exact in either arithmetic).  Division by zero
    in JS yields `Infinity`/`NaN`, which fails the `80 ≤ _ ≤ 100` range
    check; in `ℚ` division by zero yields `0`, which fails the same range
    check, so the observable component value agrees for every input.
  * Score components are non-negative integers in the source
    (`matches.length * 10`, and the constants 5/15), so they are `Nat`.
  * `Array.prototype.sort` is stable (ES2019) and is invoked with the
    comparator `(a, b) => b.score - a.score`; a stable sort with respect to
    a total preorder is unique, so it is modelled by a stable insertion
    sort that orders by strictly greater key first and preserves the
    relative order of equal keys.
  * External collaborators (product repository, event repository, OpenAI
    client) are inputs: the candidate list, the resolved top category, the
    event list, the fetched products and the generation oracle are
    parameters of the embedded functions.
  * `JavaScript` string `includes` is modelled on the character list of the
    string.
-/

namespace GimmieGift

/-- JS `haystack.includes(needle)`: `needle` occurs contiguously in `haystack`. -/
def jsIncludes (s sub : String) : Bool := decide (sub.data <:+: s.data)

/-- JS `toLowerCase()`.  Lean's `String.toLower` is `String.map
Char.toLower`; this is the same character-by-character lowering, written
on the character list. -/
def jsToLower (s : String) : String := ⟨s.data.map Char.toLower⟩

/-- The product record (Prisma `Product` as used by the services). -/
structure Product where
  id : String
  title : String
  description : String
  price : ℚ
  brand : String
  category : String
  retailer : String
  tags : List String
deriving DecidableEq

/-- `RecommendationParams` from `recommendation.service.ts` (the service-side
parameter interface: `userId`, `budget`, `interests`, optional `age`,
optional `occasion`). -/
structure RecommendationParams where
  userId : String
  budget : ℚ
  interests : List String
  age : Option Nat
  occasion : Option String
deriving DecidableEq

/-- The `scoreBreakdown` object computed by
`RecommendationService.calculateScore` (four components). -/
structure ScoreBreakdown where
  interestMatch : Nat
  budgetOptimization : Nat
  occasionMatch : Nat
  learningBoost : Nat
deriving DecidableEq

/-- `ScoredProduct`: the product spread together with `score`,
`scoreBreakdown` and the optional `aiExplanation` (absent/`null` both map
to `none`). -/
structure ScoredProduct extends Product where
  score : Nat
  scoreBreakdown : ScoreBreakdown
  aiExplanation : Option String := none
deriving DecidableEq

/-- `RecommendationService.getOccasionKeywords`. -/
def getOccasionKeywords (occasion : String) : List String :=
  let occasionLower := jsToLower occasion
  if occasionLower = "birthday" then ["birthday", "celebration", "party", "gift"]
  else if occasionLower = "anniversary" then ["anniversary", "romantic", "love", "couple"]
  else if occasionLower = "wedding" then ["wedding", "bride", "groom", "marriage"]
  else if occasionLower = "graduation" then ["graduation", "graduate", "student", "achievement"]
  else if occasionLower = "christmas" then ["christmas", "holiday", "festive", "xmas"]
  else if occasionLower = "valentines" then ["valentine", "romantic", "love", "heart"]
  else if occasionLower = "mothers-day" then ["mother", "mom", "maternal"]
  else if occasionLower = "fathers-day" then ["father", "dad", "paternal"]
  else if occasionLower = "housewarming" then ["home", "house", "living", "kitchen"]
  else if occasionLower = "baby" then ["baby", "newborn", "infant", "nursery"]
  else [occasionLower]

/-- Interest-matching block of `calculateScore`: `+10` per tag that
substring-matches (in either direction, case-insensitively) some interest.
The guard mirrors `if (params.interests && params.interests.length > 0)`. -/
def interestMatchScore (product : Product) (params : RecommendationParams) : Nat :=
  if params.interests.length > 0 then
    let productTags := product.tags.map (fun tag => jsToLower tag)
    let userInterests := params.interests.map (fun interest => jsToLower interest)
    let matched := productTags.filter
      (fun tag => userInterests.any
        (fun interest => jsIncludes tag interest || jsIncludes interest tag))
    matched.length * 10
  else 0

/-- `pricePercentage = (product.price / params.budget) * 100` from
`calculateScore` (see the division-by-zero note in the module comment). -/
def pricePercentage (product : Product) (params : RecommendationParams) : ℚ :=
  product.price / params.budget * 100

/-- Budget-optimization block of `calculateScore`: `+5` iff the price is
80–100% of the budget (both bounds inclusive). -/
def budgetOptimizationScore (product : Product) (params : RecommendationParams) : Nat :=
  if 80 ≤ pricePercentage product params ∧ pricePercentage product params ≤ 100 then 5 else 0

/-- Occasion-matching block of `calculateScore`: the guard mirrors the JS
truthiness test `if (params.occasion)` (absent or empty string skips). -/
def occasionMatchScore (product : Product) (params : RecommendationParams) : Nat :=
  match params.occasion with
  | none => 0
  | some occasion =>
    if occasion = "" then 0
    else
      let occasionKeywords := getOccasionKeywords occasion
      let titleLower := jsToLower product.title
      let descLower := jsToLower product.description
      if occasionKeywords.any
          (fun keyword => jsIncludes titleLower keyword || jsIncludes descLower keyword)
      then 5 else 0

/-- Learning-boost block of `calculateScore`: the guard mirrors
`if (userTopCategory && product.category === userTopCategory)`. -/
def learningBoostScore (product : Product) (userTopCategory : Option String) : Nat :=
  match userTopCategory with
  | none => 0
  | some c => if c ≠ "" ∧ product.category = c then 15 else 0

/-- `RecommendationService.calculateScore`: the four blocks are inlined in
one function body in the source; they are factored into the four
definitions above, assembled here in source order. -/
def calculateScore (product : Product) (params : RecommendationParams)
    (userTopCategory : Option String) : ScoreBreakdown :=
  { interestMatch := interestMatchScore product params
    budgetOptimization := budgetOptimizationScore product params
    occasionMatch := occasionMatchScore product params
    learningBoost := learningBoostScore product userTopCategory }

/-- The OpenAI round trip inside `AIService.generateGiftExplanation`
(prompt construction plus `chat.completions.create`), abstracted as an
oracle.  It receives exactly the data `buildPrompt` reads; `none` is a
thrown/absorbed request failure or an empty completion. -/
def GenOracle : Type :=
  Product → RecommendationParams → Nat → ScoreBreakdown → Option String

/-- One element of the array passed to
`AIService.generateBatchExplanations` (`{ product, params, score,
scoreBreakdown }`). -/
structure AIBatchItem where
  product : Product
  params : RecommendationParams
  score : Nat
  scoreBreakdown : ScoreBreakdown

/-- `AIService.generateGiftExplanation`: `null` when the client is not
configured; otherwise `content || null` of the completion — an empty
string collapses to `null` — and any error is caught and becomes `null`. -/
def generateGiftExplanation (enabled : Bool) (gen : GenOracle) (item : AIBatchItem) :
    Option String :=
  match enabled with
  | false => none
  | true =>
    match gen item.product item.params item.score item.scoreBreakdown with
    | none => none
    | some content => if content = "" then none else some content

/-- One iteration of the batch loop: a truthy explanation is written into
the map under the item's product id, otherwise the map is unchanged
(`if (explanation) explanations.set(...)`). -/
def batchInsert (gen : GenOracle) (m : String → Option String) (item : AIBatchItem) :
    String → Option String :=
  match generateGiftExplanation true gen item with
  | some explanation => fun id => if id = item.product.id then some explanation else m id
  | none => m

/-- `AIService.generateBatchExplanations`, as the lookup function of the
produced `Map`.  The JS `Map` is keyed by `product.id` with
last-write-wins updates. -/
def generateBatchExplanations (enabled : Bool) (gen : GenOracle)
    (products : List AIBatchItem) (limit : Nat := 5) : String → Option String :=
  match enabled with
  | false => fun _ => none
  | true => (products.take limit).foldl (batchInsert gen) (fun _ => none)

/-- Stable descending insertion by a `Nat` key: the incoming element goes
in front of the first already-placed element whose key is not larger.
This is the unique stable sort for the JS comparator
`(a, b) => key(b) - key(a)`. -/
def insertByKeyDesc {α : Type} (key : α → Nat) (x : α) : List α → List α
  | [] => [x]
  | y :: ys => if key x < key y then y :: insertByKeyDesc key x ys else x :: y :: ys

/-- Stable descending sort by a `Nat` key (model of the stable
`Array.prototype.sort` with a descending numeric comparator). -/
def sortByKeyDesc {α : Type} (key : α → Nat) : List α → List α
  | [] => []
  | x :: xs => insertByKeyDesc key x (sortByKeyDesc key xs)

/-- Step 3 of `RecommendationService.getRecommendations`: score each
candidate and attach `score` (the sum of the four breakdown components)
and `scoreBreakdown`.  The repository calls are externalized:
`candidates` is the list returned by
`productRepository.getRecommendationCandidates(params.budget * 1.15, 100)`
and `userTopCategory` is `eventRepository.getUserTopCategory(...)?.category`.
`aiEnabled` is `aiService.isAIEnabled()` and `gen` the OpenAI oracle.
Source default for `limit` is `20`. -/
def scoreCandidates (candidates : List Product) (params : RecommendationParams)
    (userTopCategory : Option String) : List ScoredProduct :=
  candidates.map (fun product =>
    let breakdown := calculateScore product params userTopCategory
    let totalScore := breakdown.interestMatch + breakdown.budgetOptimization +
      breakdown.occasionMatch + breakdown.learningBoost
    { toProduct := product, score := totalScore, scoreBreakdown := breakdown })

/-- `RecommendationService.getRecommendations`, continued: sort
descending by total score, truncate to `limit`, then attach the batch
explanations (`explanations.get(product.id) || null`) when the AI client
is enabled and the list is non-empty. -/
def getRecommendations (candidates : List Product) (params : RecommendationParams)
    (userTopCategory : Option String) (aiEnabled : Bool) (gen : GenOracle)
    (limit : Nat := 20) : List ScoredProduct :=
  match candidates with
  | [] => []
  | _ :: _ =>
    let topRecommendations :=
      (sortByKeyDesc (fun sp => sp.score)
        (scoreCandidates candidates params userTopCategory)).take limit
    match aiEnabled, topRecommendations with
    | true, _ :: _ =>
      let productsForAI := (topRecommendations.take 5).map (fun sp =>
        AIBatchItem.mk sp.toProduct params sp.score sp.scoreBreakdown)
      let explanations := generateBatchExplanations true gen productsForAI
      topRecommendations.map (fun sp =>
        { sp with aiExplanation := explanations sp.toProduct.id })
    | _, _ => topRecommendations

/-- Projection of a ranked list to its deterministic part: products in
order with their totals and breakdowns (drops only `aiExplanation`). -/
def stripAI (l : List ScoredProduct) : List (Product × Nat × ScoreBreakdown) :=
  l.map (fun sp => (sp.toProduct, sp.score, sp.scoreBreakdown))

/-- An interaction event as consumed by
`LearningService.getUserDiagnostics` (only `productId` is read; the kind
and timestamp do not influence the aggregation). -/
structure InteractionEvent where
  userId : String
  productId : String
  eventType : String
deriving DecidableEq

/-- One `{ category, interactionCount }` entry of `topCategories`. -/
structure CategoryStat where
  category : String
  interactionCount : Nat
deriving DecidableEq

/-- The `UserDiagnostics` record of `learning.service`. -/
structure UserDiagnostics where
  userId : String
  topCategories : List CategoryStat
  topBoostedTags : List String
  rankingExplanation : String
  totalEvents : Nat
deriving DecidableEq

/-- Lookup in `productMap = new Map(products.map(p => [p.id, p]))`:
last entry with the id wins, mirroring `Map` insertion semantics. -/
def productById (products : List Product) (id : String) : Option Product :=
  products.foldl (fun acc p => if p.id = id then some p else acc) none

/-- One `Map` count increment
(`map.set(k, (map.get(k) || 0) + 1)`): a JS `Map` keeps the original
insertion position of an updated key, so the association list is updated
in place, or the key is appended when new. -/
def bump (m : List (String × Nat)) (k : String) : List (String × Nat) :=
  match m with
  | [] => [(k, 1)]
  | (k₀, v) :: rest => if k₀ = k then (k₀, v + 1) :: rest else (k₀, v) :: bump rest k

/-- Increment a counter map once per element of `ks`
(`product.tags.forEach(tag => ...)`). -/
def bumpAll (m : List (String × Nat)) (ks : List String) : List (String × Nat) :=
  ks.foldl bump m

/-- The `categoryCount` map after the `events.forEach` loop: one increment
per event whose product resolves. -/
def categoryCounts (events : List InteractionEvent) (products : List Product) :
    List (String × Nat) :=
  events.foldl
    (fun m e =>
      match productById products e.productId with
      | some product => bump m product.category
      | none => m)
    []

/-- The `tagCount` map after the `events.forEach` loop: one increment per
tag occurrence of each resolved event's product. -/
def tagCounts (events : List InteractionEvent) (products : List Product) :
    List (String × Nat) :=
  events.foldl
    (fun m e =>
      match productById products e.productId with
      | some product => bumpAll m product.tags
      | none => m)
    []

/-- `LearningService.getUserDiagnostics`.  The two repository calls are
externalized: `events` is `eventRepository.getUserEvents(userId, 100)` and
`products` is `productRepository.getProductsByIds(...)`.  The string is
assembled as in the source (template literals concatenated with `+=`
under the two emptiness guards); the literal chunks are merely split at
the newline boundaries, which leaves the assembled string identical
character for character. -/
def getUserDiagnostics (userId : String) (events : List InteractionEvent)
    (products : List Product) : UserDiagnostics :=
  match events with
  | [] =>
    { userId := userId
      topCategories := []
      topBoostedTags := []
      rankingExplanation := "No interaction history found. Recommendations will be based solely on your profile preferences."
      totalEvents := 0 }
  | _ :: _ =>
    let topCategories :=
      (sortByKeyDesc (fun s => s.interactionCount)
        ((categoryCounts events products).map (fun kv => CategoryStat.mk kv.1 kv.2))).take 5
    let topBoostedTags :=
      ((sortByKeyDesc (fun kv => kv.2) (tagCounts events products)).take 10).map
        (fun kv => kv.1)
    let expl₁ := "Based on your interaction history:\n"
    let expl₂ := expl₁ ++
      (match topCategories with
       | top :: _ =>
         "\n" ++ ("• Products in \"" ++ top.category ++
             "\" category receive a +15 point boost") ++ "\n" ++
           ("• You have shown interest in " ++ toString topCategories.length ++
             " different categories") ++ "\n"
       | [] => "")
    let expl₃ := expl₂ ++
      (match topBoostedTags with
       | _ :: _ =>
         ("• Products with tags like \"" ++
           String.intercalate "\", \"" (topBoostedTags.take 3) ++ "\" are prioritized") ++ "\n"
       | [] => "")
    let rankingExplanation :=
      expl₃ ++ ("• Total of " ++ toString events.length ++ " interactions analyzed")
    { userId := userId
      topCategories := topCategories
      topBoostedTags := topBoostedTags
      rankingExplanation := rankingExplanation
      totalEvents := events.length }

/-- The `relationship` enumeration of
`recommendationRequestSchema` (`src/unnamed/part_003`). -/
inductive Relationship where
  | friend | partner | parent | sibling | colleague | child | other
deriving DecidableEq

/-- Wire label of a `Relationship` value. -/
def relationshipLabel : Relationship → String
  | .friend => "friend"
  | .partner => "partner"
  | .parent => "parent"
  | .sibling => "sibling"
  | .colleague => "colleague"
  | .child => "child"
  | .other => "other"

/-- The validated request of `recommendationRequestSchema`
(`src/unnamed/part_003`): `userId`, `budget ≥ 0`, non-empty `interests`,
optional `recipientAge`/`age`, optional `occasion`, optional
`relationship`. -/
structure RecommendationRequest where
  userId : String
  budget : ℚ
  interests : List String
  recipientAge : Option Nat
  age : Option Nat
  occasion : Option String
  relationship : Option Relationship
deriving DecidableEq

/-- Modelled from the spec: the five-component `ScoreBreakdown` of §3/§4.2
(the scoring engine in `src/src/services/recommendation.service.ts`
produces only the four-component `ScoreBreakdown` above; the
`relationshipMatch` component exists only in the spec, the repository's
tests and its README). -/
structure SpecScoreBreakdown where
  interestMatch : Nat
  budgetOptimization : Nat
  occasionMatch : Nat
  relationshipMatch : Nat
  learningBoost : Nat
deriving DecidableEq

/-- Modelled from the spec: §4.3's recomputation of which interests
matched — the interests for which some item tag matches under the
bidirectional case-insensitive substring rule of §4.2. -/
def matchedInterests (item : Product) (request : RecommendationRequest) : List String :=
  request.interests.filter
    (fun interest => item.tags.any
      (fun tag => jsIncludes (jsToLower tag) (jsToLower interest) ||
        jsIncludes (jsToLower interest) (jsToLower tag)))

/-- Modelled from the spec: the Justification Generator
`explain(item, request, breakdown)` of §4.3, which is absent from the
sources (only the repository's test asserting a `reason` field and the
README's sample reason string refer to it).  Clause texts follow §4.3 and
the README sample
"... is recommended because it matches interests: gaming, tech, great value within budget." -/
def explain (item : Product) (request : RecommendationRequest)
    (breakdown : SpecScoreBreakdown) : String :=
  let interestClause :=
    if breakdown.interestMatch > 0 then
      ["matches interests: " ++ String.intercalate ", " (matchedInterests item request)]
    else []
  let budgetClause :=
    if breakdown.budgetOptimization > 0 then ["great value within budget"] else []
  let occasionClause :=
    match request.occasion with
    | some occasion => if breakdown.occasionMatch > 0 then ["perfect for " ++ occasion] else []
    | none => []
  let relationshipClause :=
    match request.relationship with
    | some rel =>
      if breakdown.relationshipMatch > 0 then
        ["ideal gift for a " ++ relationshipLabel rel]
      else []
    | none => []
  let learningClause :=
    if breakdown.learningBoost > 0 then ["based on your previous preferences"] else []
  match interestClause ++ budgetClause ++ occasionClause ++ relationshipClause ++
      learningClause with
  | [] => item.title ++ " is a popular choice in the " ++ item.category ++ " category."
  | clause :: rest =>
    item.title ++ " is recommended because it " ++
      String.intercalate ", " (clause :: rest)

/-- Claim-side reading of §4.3: the list of fired clauses, written as a
condition/text table filtered to the fired entries. -/
def specFiredClauses (item : Product) (request : RecommendationRequest)
    (breakdown : SpecScoreBreakdown) : List String :=
  ([(decide (breakdown.interestMatch > 0),
      "matches interests: " ++ String.intercalate ", " (matchedInterests item request)),
    (decide (breakdown.budgetOptimization > 0), "great value within budget"),
    (decide (breakdown.occasionMatch > 0) && request.occasion.isSome,
      "perfect for " ++ request.occasion.getD ""),
    (decide (breakdown.relationshipMatch > 0) && request.relationship.isSome,
      "ideal gift for a " ++ (request.relationship.map relationshipLabel).getD ""),
    (decide (breakdown.learningBoost > 0), "based on your previous preferences")] :
      List (Bool × String)).filterMap
    (fun fired => if fired.1 then some fired.2 else none)

/-- Claim-side matching rule on an (interest, tag) pair: case-insensitively,
the interest is a substring of the tag or the tag is a substring of the
interest. -/
def interestTagMatch (interest tag : String) : Prop :=
  (jsToLower interest).data <:+: (jsToLower tag).data ∨ (jsToLower tag).data <:+: (jsToLower interest).data

instance (interest tag : String) : Decidable (interestTagMatch interest tag) := by
  unfold interestTagMatch; infer_instance

/-- Claim-side: the categories of the resolved products of a user's
events, one occurrence per event. -/
def resolvedCategories (events : List InteractionEvent) (products : List Product) :
    List String :=
  events.filterMap (fun e => (productById products e.productId).map (fun p => p.category))

/-- The "Gaming Keyboard" product of
`src/src/services/__tests__/recommendation.service.test.ts`. -/
def gamingKeyboard : Product :=
  { id := "1"
    title := "Gaming Keyboard"
    description := "Mechanical keyboard for gamers"
    price := 80
    brand := "GamePro"
    category := "Electronics"
    retailer := "TechStore"
    tags := ["gaming", "tech", "computer"] }

/-- The request of the repository's relationship-matching unit test
(`budget: 100, interests: [], relationship: 'friend'`), restricted to the
fields the service-side `RecommendationParams` interface declares. -/
def friendRequestParams : RecommendationParams :=
  { userId := "user-1", budget := 100, interests := [], age := none, occasion := none }

/-- `gen` with the generation request for the product with id `bad`
failing (the oracle-level picture of one OpenAI call throwing). -/
def failAt (bad : String) (gen : GenOracle) : GenOracle :=
  fun product params score breakdown =>
    if product.id = bad then none else gen product params score breakdown

/-- A minimal catalog item (used to instantiate general theorems). -/
def plainProduct (id : String) : Product :=
  { id := id, title := "", description := "", price := 0, brand := "", category := "",
    retailer := "", tags := [] }

/-- Eleven candidates, to observe the pipeline's default truncation. -/
def elevenCandidates : List Product :=
  ["a", "b", "c", "d", "e", "f", "g", "h", "i", "j", "k"].map plainProduct

/-- An always-failing generation oracle. -/
def genNone : GenOracle := fun _ _ _ _ => none

/-- Six catalog items in six distinct categories (diagnostics fixtures). -/
def sixCategoryProducts : List Product :=
  [("pa", "CatA"), ("pb", "CatB"), ("pc", "CatC"), ("pd", "CatD"), ("pe", "CatE"),
    ("pf", "CatF")].map
    (fun kv =>
      { id := kv.1, title := "", description := "", price := 0, brand := "",
        category := kv.2, retailer := "", tags := ["alpha"] })

/-- Seven interaction events of one user over the six items above (the
first item is interacted with twice). -/
def sevenEvents : List InteractionEvent :=
  [⟨"u", "pa", "VIEW_PRODUCT"⟩, ⟨"u", "pa", "VIEW_PRODUCT"⟩, ⟨"u", "pb", "VIEW_PRODUCT"⟩,
    ⟨"u", "pc", "VIEW_PRODUCT"⟩, ⟨"u", "pd", "VIEW_PRODUCT"⟩, ⟨"u", "pe", "VIEW_PRODUCT"⟩,
    ⟨"u", "pf", "VIEW_PRODUCT"⟩]

/-- One-product, one-event diagnostics fixture. -/
def singleProduct : Product :=
  { id := "pw", title := "", description := "", price := 0, brand := "",
    category := "CatW", retailer := "", tags := ["wtag"] }

/-- The single event matching `singleProduct`. -/
def singleEvent : List InteractionEvent := [⟨"u", "pw", "VIEW_PRODUCT"⟩]

/-- The README's sample recommendation, as an item record (only the
fields the justification generator reads matter). -/
def gamingKeyboardRGB : Product :=
  { id := "gk", title := "Gaming Keyboard RGB", description := "", price := 0, brand := "",
    category := "Electronics", retailer := "", tags := ["gaming", "tech"] }

/-- The README's sample request for the justification generator. -/
def rgbRequest : RecommendationRequest :=
  { userId := "u", budget := 100, interests := ["gaming", "tech"], recipientAge := none,
    age := none, occasion := none, relationship := some .friend }

/-- The first unit test's request (`budget: 100, interests: ['gaming', 'tech']`). -/
def techParams : RecommendationParams :=
  { userId := "user-1", budget := 100, interests := ["gaming", "tech"], age := none,
    occasion := none }

/-- An oracle answering every request with a product-specific string. -/
def genEcho : GenOracle := fun product _ _ _ => some ("for " ++ product.id)

/-- Two batch items over distinct product ids. -/
def twoBatchItems : List AIBatchItem :=
  [AIBatchItem.mk (plainProduct "x1") friendRequestParams 0 ⟨0, 0, 0, 0⟩,
    AIBatchItem.mk (plainProduct "x2") friendRequestParams 0 ⟨0, 0, 0, 0⟩]

/-! ### Helper lemmas -/

theorem length_insertByKeyDesc {α : Type} (key : α → Nat) (x : α) (l : List α) :
    (insertByKeyDesc key x l).length = l.length + 1 := by
  induction l with
  | nil => rfl
  | cons y ys ih => by_cases h : key x < key y <;> simp [insertByKeyDesc, h, ih]

theorem length_sortByKeyDesc {α : Type} (key : α → Nat) (l : List α) :
    (sortByKeyDesc key l).length = l.length := by
  induction l with
  | nil => rfl
  | cons x xs ih => simp [sortByKeyDesc, length_insertByKeyDesc, ih]

theorem mem_insertByKeyDesc {α : Type} (key : α → Nat) (x a : α) (l : List α) :
    a ∈ insertByKeyDesc key x l ↔ a = x ∨ a ∈ l := by
  induction l with
  | nil => simp [insertByKeyDesc]
  | cons y ys ih =>
    by_cases h : key x < key y
    · simp [insertByKeyDesc, h, ih]
      tauto
    · simp [insertByKeyDesc, h]

theorem mem_sortByKeyDesc {α : Type} (key : α → Nat) (a : α) (l : List α) :
    a ∈ sortByKeyDesc key l ↔ a ∈ l := by
  induction l with
  | nil => simp [sortByKeyDesc]
  | cons x xs ih => simp [sortByKeyDesc, mem_insertByKeyDesc, ih]

theorem length_scoreCandidates (candidates : List Product) (params : RecommendationParams)
    (c : Option String) : (scoreCandidates candidates params c).length = candidates.length := by
  simp [scoreCandidates]

theorem score_eq_sum_of_mem_scoreCandidates {sp : ScoredProduct}
    {candidates : List Product} {params : RecommendationParams} {c : Option String}
    (h : sp ∈ scoreCandidates candidates params c) :
    sp.score = sp.scoreBreakdown.interestMatch + sp.scoreBreakdown.budgetOptimization +
      sp.scoreBreakdown.occasionMatch + sp.scoreBreakdown.learningBoost := by
  simp only [scoreCandidates, List.mem_map] at h
  obtain ⟨product, _, rfl⟩ := h
  rfl

theorem getRecommendations_length (candidates : List Product)
    (params : RecommendationParams) (c : Option String) (enabled : Bool) (gen : GenOracle)
    (limit : Nat) :
    (getRecommendations candidates params c enabled gen limit).length =
      min limit candidates.length := by
  cases candidates with
  | nil => simp [getRecommendations]
  | cons p ps =>
    simp only [getRecommendations]
    split <;>
      simp [List.length_take, length_sortByKeyDesc, length_scoreCandidates]

theorem score_eq_sum_of_mem_getRecommendations {sp : ScoredProduct}
    {candidates : List Product} {params : RecommendationParams} {c : Option String}
    {enabled : Bool} {gen : GenOracle} {limit : Nat}
    (h : sp ∈ getRecommendations candidates params c enabled gen limit) :
    sp.score = sp.scoreBreakdown.interestMatch + sp.scoreBreakdown.budgetOptimization +
      sp.scoreBreakdown.occasionMatch + sp.scoreBreakdown.learningBoost := by
  cases candidates with
  | nil => simp [getRecommendations] at h
  | cons p ps =>
    simp only [getRecommendations] at h
    have key :
        ∀ sp₀ ∈ (sortByKeyDesc (fun sp => sp.score)
            (scoreCandidates (p :: ps) params c)).take limit,
          sp₀.score = sp₀.scoreBreakdown.interestMatch +
            sp₀.scoreBreakdown.budgetOptimization + sp₀.scoreBreakdown.occasionMatch +
            sp₀.scoreBreakdown.learningBoost := by
      intro sp₀ hsp₀
      exact score_eq_sum_of_mem_scoreCandidates
        ((mem_sortByKeyDesc _ _ _).mp (List.mem_of_mem_take hsp₀))
    revert h
    split
    · intro h
      simp only [List.mem_map] at h
      obtain ⟨sp₀, hsp₀, rfl⟩ := h
      exact key sp₀ hsp₀
    · intro h
      exact key sp h

theorem any_decide_eq_decide_bex {α : Type} (l : List α) (p : α → Prop)
    [DecidablePred p] : (l.any fun x => decide (p x)) = decide (∃ x ∈ l, p x) := by
  by_cases h : ∃ x ∈ l, p x
  · rw [decide_eq_true h, List.any_eq_true]
    obtain ⟨x, hx, hp⟩ := h
    exact ⟨x, hx, decide_eq_true hp⟩
  · rw [decide_eq_false h, ← Bool.not_eq_true, List.any_eq_true]
    rintro ⟨x, hx, hp⟩
    exact h ⟨x, hx, of_decide_eq_true hp⟩

theorem interestMatchScore_eq_countP (product : Product) (params : RecommendationParams)
    (h : params.interests ≠ []) :
    interestMatchScore product params =
      (product.tags.countP
        (fun tag => decide (∃ i ∈ params.interests, interestTagMatch i tag))) * 10 := by
  unfold interestMatchScore
  rw [if_pos (by simpa [List.length_pos] using h)]
  show (List.filter
      (fun tag => (params.interests.map (fun interest => jsToLower interest)).any
        (fun interest => jsIncludes tag interest || jsIncludes interest tag))
      (product.tags.map (fun tag => jsToLower tag))).length * 10 = _
  congr 1
  rw [← List.countP_eq_length_filter, List.countP_map]
  refine List.countP_congr (fun tag _ => ?_)
  show ((params.interests.map jsToLower).any
      (fun interest => jsIncludes (jsToLower tag) interest ||
        jsIncludes interest (jsToLower tag)) = true) ↔ _
  rw [List.any_map]
  show (params.interests.any
      (fun i => jsIncludes (jsToLower tag) (jsToLower i) ||
        jsIncludes (jsToLower i) (jsToLower tag)) = true) ↔ _
  have hpt : (fun i => jsIncludes (jsToLower tag) (jsToLower i) ||
      jsIncludes (jsToLower i) (jsToLower tag)) =
      fun i => decide (interestTagMatch i tag) := by
    funext i
    simp [jsIncludes, interestTagMatch, Bool.decide_or]
  rw [hpt, any_decide_eq_decide_bex]

theorem stripAI_map_update (l : List ScoredProduct) (f : ScoredProduct → Option String) :
    stripAI (l.map fun sp => { sp with aiExplanation := f sp }) = stripAI l := by
  simp only [stripAI, List.map_map]
  rfl

theorem stripAI_getRecommendations (candidates : List Product)
    (params : RecommendationParams) (c : Option String) (enabled : Bool) (gen : GenOracle)
    (limit : Nat) :
    stripAI (getRecommendations candidates params c enabled gen limit) =
      stripAI ((sortByKeyDesc (fun sp => sp.score)
        (scoreCandidates candidates params c)).take limit) := by
  cases candidates with
  | nil => simp [getRecommendations, scoreCandidates, sortByKeyDesc, stripAI]
  | cons p ps =>
    simp only [getRecommendations]
    split
    · exact stripAI_map_update _ _
    · rfl

theorem batchInsert_ne_id (gen : GenOracle) (m : String → Option String)
    (item : AIBatchItem) (id : String) (h : id ≠ item.product.id) :
    batchInsert gen m item id = m id := by
  unfold batchInsert
  cases hg : generateGiftExplanation true gen item <;> simp [h]

theorem foldl_batchInsert_local (gen : GenOracle) (bad : String) :
    ∀ (l : List AIBatchItem) (m₁ m₂ : String → Option String),
      (∀ id, id ≠ bad → m₁ id = m₂ id) →
      ∀ id, id ≠ bad →
        l.foldl (batchInsert (failAt bad gen)) m₁ id = l.foldl (batchInsert gen) m₂ id := by
  intro l
  induction l with
  | nil => exact fun m₁ m₂ hm id hid => hm id hid
  | cons item rest ih =>
    intro m₁ m₂ hm id hid
    simp only [List.foldl_cons]
    refine ih _ _ (fun id' hid' => ?_) id hid
    by_cases hitem : item.product.id = bad
    · have hfail : generateGiftExplanation true (failAt bad gen) item = none := by
        simp [generateGiftExplanation, failAt, hitem]
      have hskip : batchInsert (failAt bad gen) m₁ item = m₁ := by
        unfold batchInsert
        rw [hfail]
      rw [hskip, batchInsert_ne_id gen m₂ item id' (hitem ▸ hid')]
      exact hm id' hid'
    · have hsame : generateGiftExplanation true (failAt bad gen) item =
          generateGiftExplanation true gen item := by
        simp [generateGiftExplanation, failAt, hitem]
      unfold batchInsert
      rw [hsame]
      cases hg : generateGiftExplanation true gen item with
      | none => exact hm id' hid'
      | some e =>
        by_cases hid'' : id' = item.product.id <;> simp [hid'', hm id' hid']

theorem foldl_batchInsert_fail_bad (gen : GenOracle) (bad : String) :
    ∀ (l : List AIBatchItem) (m : String → Option String), m bad = none →
      l.foldl (batchInsert (failAt bad gen)) m bad = none := by
  intro l
  induction l with
  | nil => exact fun m hm => hm
  | cons item rest ih =>
    intro m hm
    simp only [List.foldl_cons]
    refine ih _ ?_
    by_cases hitem : item.product.id = bad
    · have hfail : generateGiftExplanation true (failAt bad gen) item = none := by
        simp [generateGiftExplanation, failAt, hitem]
      unfold batchInsert
      rw [hfail]
      exact hm
    · rw [batchInsert_ne_id _ m item bad (fun hbad => hitem hbad.symm)]
      exact hm

theorem bump_map_fst (m : List (String × Nat)) (k : String) :
    (bump m k).map Prod.fst =
      if k ∈ m.map Prod.fst then m.map Prod.fst else m.map Prod.fst ++ [k] := by
  induction m with
  | nil => simp [bump]
  | cons kv rest ih =>
    obtain ⟨k₀, v⟩ := kv
    by_cases h : k₀ = k
    · simp [bump, h]
    · by_cases hmem : k ∈ rest.map Prod.fst <;>
        simp [bump, h, hmem, ih, Ne.symm h]

theorem mem_bump_map_fst (m : List (String × Nat)) (k a : String) :
    a ∈ (bump m k).map Prod.fst ↔ a ∈ m.map Prod.fst ∨ a = k := by
  rw [bump_map_fst]
  by_cases hmem : k ∈ m.map Prod.fst
  · simp only [hmem, if_true]
    constructor
    · exact Or.inl
    · rintro (h | rfl)
      · exact h
      · exact hmem
  · simp [hmem]

theorem nodup_bump_map_fst (m : List (String × Nat)) (k : String)
    (h : (m.map Prod.fst).Nodup) : ((bump m k).map Prod.fst).Nodup := by
  rw [bump_map_fst]
  by_cases hmem : k ∈ m.map Prod.fst
  · simpa [hmem] using h
  · rw [if_neg hmem, List.nodup_append]
    refine ⟨h, List.nodup_singleton k, ?_⟩
    intro a ha hak
    rw [List.mem_singleton] at hak
    subst hak
    exact hmem ha

theorem mem_bumpAll_map_fst (ks : List String) :
    ∀ (m : List (String × Nat)) (a : String),
      a ∈ (bumpAll m ks).map Prod.fst ↔ a ∈ m.map Prod.fst ∨ a ∈ ks := by
  induction ks with
  | nil => simp [bumpAll]
  | cons k ks ih =>
    intro m a
    show a ∈ (bumpAll (bump m k) ks).map Prod.fst ↔ _
    rw [ih, mem_bump_map_fst]
    simp
    tauto

theorem nodup_bumpAll_map_fst (ks : List String) :
    ∀ (m : List (String × Nat)), (m.map Prod.fst).Nodup →
      ((bumpAll m ks).map Prod.fst).Nodup := by
  induction ks with
  | nil => exact fun m h => h
  | cons k ks ih =>
    intro m h
    exact ih (bump m k) (nodup_bump_map_fst m k h)

theorem mem_categoryFold_map_fst (products : List Product)
    (events : List InteractionEvent) :
    ∀ (m : List (String × Nat)) (a : String),
      a ∈ ((events.foldl (fun m e =>
          match productById products e.productId with
          | some product => bump m product.category
          | none => m) m).map Prod.fst) ↔
        a ∈ m.map Prod.fst ∨ a ∈ resolvedCategories events products := by
  induction events with
  | nil => simp [resolvedCategories]
  | cons e rest ih =>
    intro m a
    rw [List.foldl_cons]
    cases hp : productById products e.productId with
    | none =>
      simp only [hp]
      rw [ih]
      simp [resolvedCategories, List.filterMap_cons, hp]
    | some product =>
      simp only [hp]
      rw [ih, mem_bump_map_fst]
      simp [resolvedCategories, List.filterMap_cons, hp]
      tauto

theorem nodup_categoryFold_map_fst (products : List Product)
    (events : List InteractionEvent) :
    ∀ (m : List (String × Nat)), (m.map Prod.fst).Nodup →
      ((events.foldl (fun m e =>
          match productById products e.productId with
          | some product => bump m product.category
          | none => m) m).map Prod.fst).Nodup := by
  induction events with
  | nil => exact fun m h => h
  | cons e rest ih =>
    intro m h
    rw [List.foldl_cons]
    cases hp : productById products e.productId with
    | none => simp only [hp]; exact ih m h
    | some product => simp only [hp]; exact ih _ (nodup_bump_map_fst m product.category h)

theorem mem_categoryCounts_map_fst (events : List InteractionEvent)
    (products : List Product) (a : String) :
    a ∈ (categoryCounts events products).map Prod.fst ↔
      a ∈ resolvedCategories events products := by
  have h := mem_categoryFold_map_fst products events [] a
  simpa [categoryCounts] using h

theorem categoryCounts_length_eq_card (events : List InteractionEvent)
    (products : List Product) :
    (categoryCounts events products).length =
      (resolvedCategories events products).toFinset.card := by
  have hnodup : ((categoryCounts events products).map Prod.fst).Nodup := by
    have h := nodup_categoryFold_map_fst products events [] (by simp)
    simpa [categoryCounts] using h
  have hfin : ((categoryCounts events products).map Prod.fst).toFinset =
      (resolvedCategories events products).toFinset := by
    apply Finset.ext
    intro a
    simp only [List.mem_toFinset]
    exact mem_categoryCounts_map_fst events products a
  calc (categoryCounts events products).length
      = ((categoryCounts events products).map Prod.fst).length := by
        rw [List.length_map]
    _ = ((categoryCounts events products).map Prod.fst).toFinset.card :=
        (List.toFinset_card_of_nodup hnodup).symm
    _ = (resolvedCategories events products).toFinset.card := by rw [hfin]

theorem mem_tagFold_map_fst (products : List Product)
    (events : List InteractionEvent) :
    ∀ (m : List (String × Nat)) (a : String),
      a ∈ ((events.foldl (fun m e =>
          match productById products e.productId with
          | some product => bumpAll m product.tags
          | none => m) m).map Prod.fst) ↔
        a ∈ m.map Prod.fst ∨
          ∃ e ∈ events, ∃ p, productById products e.productId = some p ∧ a ∈ p.tags := by
  induction events with
  | nil => simp
  | cons e rest ih =>
    intro m a
    rw [List.foldl_cons]
    cases hp : productById products e.productId with
    | none =>
      simp only [hp]
      rw [ih]
      constructor
      · rintro (h | h)
        · exact Or.inl h
        · obtain ⟨e', he', hp'⟩ := h
          exact Or.inr ⟨e', List.mem_cons_of_mem e he', hp'⟩
      · rintro (h | ⟨e', he', p, hp', ha⟩)
        · exact Or.inl h
        · rcases List.mem_cons.mp he' with rfl | he''
          · rw [hp] at hp'
            exact absurd hp' (by simp)
          · exact Or.inr ⟨e', he'', p, hp', ha⟩
    | some product =>
      simp only [hp]
      rw [ih, mem_bumpAll_map_fst]
      constructor
      · rintro ((h | h) | h)
        · exact Or.inl h
        · exact Or.inr ⟨e, List.mem_cons_self e rest, product, hp, h⟩
        · obtain ⟨e', he', hp'⟩ := h
          exact Or.inr ⟨e', List.mem_cons_of_mem e he', hp'⟩
      · rintro (h | ⟨e', he', p, hp', ha⟩)
        · exact Or.inl (Or.inl h)
        · rcases List.mem_cons.mp he' with rfl | he''
          · rw [hp] at hp'
            obtain rfl : product = p := by injection hp'
            exact Or.inl (Or.inr ha)
          · exact Or.inr ⟨e', he'', p, hp', ha⟩

theorem mem_tagCounts_map_fst (events : List InteractionEvent)
    (products : List Product) (a : String) :
    a ∈ (tagCounts events products).map Prod.fst ↔
      ∃ e ∈ events, ∃ p, productById products e.productId = some p ∧ a ∈ p.tags := by
  have h := mem_tagFold_map_fst products events [] a
  simpa [tagCounts] using h

theorem strAppend_assoc (a b c : String) : a ++ b ++ c = a ++ (b ++ c) := by
  apply String.ext
  simp [String.data_append]

theorem jsIncludes_sandwich (pre mid post : String) :
    jsIncludes (pre ++ mid ++ post) mid = true := by
  unfold jsIncludes
  apply decide_eq_true
  exact ⟨pre.data, post.data, by simp [String.data_append]⟩

theorem jsIncludes_append_end (pre mid : String) : jsIncludes (pre ++ mid) mid = true := by
  unfold jsIncludes
  apply decide_eq_true
  exact ⟨pre.data, [], by simp [String.data_append]⟩

/-! ### Claim theorems -/

/-- C1 (code_bug evidence): what the scoring engine actually attaches —
for every candidate list, request, learned category, AI flag, oracle and
limit, every ranked item's total `score` equals the sum of the **four**
components of its `scoreBreakdown` (`interestMatch`,
`budgetOptimization`, `occasionMatch`, `learningBoost`); no
`relationshipMatch` component exists in the breakdown computed by
`calculateScore`, contrary to the claim's five-component shape. -/
theorem getRecommendations_score_eq_sum_of_four_components
    (candidates : List Product) (params : RecommendationParams) (c : Option String)
    (enabled : Bool) (gen : GenOracle) (limit : Nat) :
    ((getRecommendations candidates params c enabled gen limit).all
      (fun sp => sp.score == sp.scoreBreakdown.interestMatch +
        sp.scoreBreakdown.budgetOptimization + sp.scoreBreakdown.occasionMatch +
        sp.scoreBreakdown.learningBoost)) = true := by
  rw [List.all_eq_true]
  intro sp hsp
  simpa using score_eq_sum_of_mem_getRecommendations hsp

/-- C2 (code_bug evidence): at the repository's own relationship-matching
unit-test input — the Electronics "Gaming Keyboard" with
`budget = 100, interests = [], relationship = 'friend'` — the scoring
engine of the sources returns the breakdown `⟨0, 5, 0, 0⟩` (interest 0,
budget 5, occasion 0, learning 0): no five-point relationship award is
made anywhere, so the test's expected `relationshipMatch = 5` cannot be
produced. -/
theorem calculateScore_friend_electronics_no_relationship_award :
    calculateScore gamingKeyboard friendRequestParams none = ⟨0, 5, 0, 0⟩ := by
  have h₂ : budgetOptimizationScore gamingKeyboard friendRequestParams = 5 := by
    norm_num [budgetOptimizationScore, pricePercentage, gamingKeyboard, friendRequestParams]
  simp [calculateScore, h₂]
  exact ⟨by decide, by decide, by decide⟩

/-- C4 (amended): when the ranking pipeline is invoked without an
explicit `limit`, it truncates the sorted result to the top **20** items
(`limit: number = 20` in the source); the result length is exactly
`min 20 |candidates|`.  (The HTTP controller separately passes an
explicit `10`.) -/
theorem getRecommendations_default_truncates_to_twenty
    (candidates : List Product) (params : RecommendationParams) (c : Option String)
    (enabled : Bool) (gen : GenOracle) :
    (getRecommendations candidates params c enabled gen).length =
      min 20 candidates.length :=
  getRecommendations_length candidates params c enabled gen 20

/-- C4 (counterexample to the claim as stated): with eleven candidates
and no explicit `limit`, the pipeline returns all eleven items — more
than the claimed default truncation to the top 10. -/
theorem getRecommendations_default_limit_exceeds_ten :
    ¬ (getRecommendations elevenCandidates friendRequestParams none false genNone).length
      ≤ 10 := by
  have h := getRecommendations_length elevenCandidates friendRequestParams none false
    genNone 20
  rw [h]
  decide

/-- C5: the budget-optimization component is exactly 5 iff
`price / budget × 100` lies in the closed interval `[80, 100]`; a zero
budget never awards (and, the embedding being total, produces no numeric
fault); the component takes no value other than 0 or 5. -/
theorem budgetOptimization_iff_eighty_to_hundred_percent
    (product : Product) (params : RecommendationParams) (c : Option String) :
    ((calculateScore product params c).budgetOptimization = 5 ↔
      80 ≤ pricePercentage product params ∧ pricePercentage product params ≤ 100) ∧
    (params.budget = 0 → (calculateScore product params c).budgetOptimization = 0) ∧
    ((calculateScore product params c).budgetOptimization = 0 ∨
      (calculateScore product params c).budgetOptimization = 5) := by
  have hb : (calculateScore product params c).budgetOptimization =
      budgetOptimizationScore product params := rfl
  rw [hb]
  unfold budgetOptimizationScore
  by_cases h : 80 ≤ pricePercentage product params ∧ pricePercentage product params ≤ 100
  · refine ⟨by simp [h], fun h0 => ?_, by simp [h]⟩
    exfalso
    have : pricePercentage product params = 0 := by
      simp [pricePercentage, h0]
    rw [this] at h
    norm_num at h
  · exact ⟨by simp [h], fun _ => by simp [h], by simp [h]⟩

/-- C5 witness: the unit-test item at 80% of a 100 budget — the bounds
hold and the component is 5. -/
theorem budgetOptimization_iff_eighty_to_hundred_percent_witness :
    80 ≤ pricePercentage gamingKeyboard friendRequestParams ∧
    pricePercentage gamingKeyboard friendRequestParams ≤ 100 ∧
    (calculateScore gamingKeyboard friendRequestParams none).budgetOptimization = 5 := by
  have h₁ : 80 ≤ pricePercentage gamingKeyboard friendRequestParams ∧
      pricePercentage gamingKeyboard friendRequestParams ≤ 100 := by
    norm_num [pricePercentage, gamingKeyboard, friendRequestParams]
  exact ⟨h₁.1, h₁.2,
    (budgetOptimization_iff_eighty_to_hundred_percent gamingKeyboard friendRequestParams
      none).1.mpr h₁⟩

/-- C6: with a non-empty interests list, `interestMatch` is 10 times the
number of item tags that bidirectionally substring-match (case-
insensitively) some interest — a tag counts once however many interests
it matches, and duplicate tag occurrences count separately. -/
theorem interestMatch_counts_bidirectional_substring_tags
    (product : Product) (params : RecommendationParams) (c : Option String)
    (h : params.interests ≠ []) :
    (calculateScore product params c).interestMatch =
      10 * product.tags.countP
        (fun tag => decide (∃ i ∈ params.interests, interestTagMatch i tag)) := by
  have hi : (calculateScore product params c).interestMatch =
      interestMatchScore product params := rfl
  rw [hi, interestMatchScore_eq_countP product params h, Nat.mul_comm]

/-- C6 witness: the unit-test item and request — both `gaming` and `tech`
tags match, `computer` does not, so `interestMatch = 20`. -/
theorem interestMatch_counts_bidirectional_substring_tags_witness :
    techParams.interests ≠ [] ∧
    (calculateScore gamingKeyboard techParams none).interestMatch =
      10 * gamingKeyboard.tags.countP
        (fun tag => decide (∃ i ∈ techParams.interests, interestTagMatch i tag)) ∧
    (calculateScore gamingKeyboard techParams none).interestMatch = 20 := by
  refine ⟨by decide,
    interestMatch_counts_bidirectional_substring_tags gamingKeyboard techParams none
      (by decide), by decide⟩

/-- C9: appending a tag that bidirectionally substring-matches an
existing interest never decreases the `interestMatch` component. -/
theorem interestMatch_monotone_under_matching_tag_append
    (product : Product) (params : RecommendationParams) (c : Option String) (t : String)
    (h : ∃ i ∈ params.interests, interestTagMatch i t) :
    (calculateScore product params c).interestMatch ≤
      (calculateScore { product with tags := product.tags ++ [t] } params c).interestMatch := by
  have hne : params.interests ≠ [] := by
    intro hnil
    obtain ⟨i, hi, _⟩ := h
    rw [hnil] at hi
    exact List.not_mem_nil i hi
  have h₁ : (calculateScore product params c).interestMatch =
      interestMatchScore product params := rfl
  have h₂ : (calculateScore { product with tags := product.tags ++ [t] } params c).interestMatch =
      interestMatchScore { product with tags := product.tags ++ [t] } params := rfl
  rw [h₁, h₂, interestMatchScore_eq_countP _ _ hne, interestMatchScore_eq_countP _ _ hne]
  show (product.tags.countP _) * 10 ≤ ((product.tags ++ [t]).countP _) * 10
  rw [List.countP_append]
  have ht : (fun tag => decide (∃ i ∈ params.interests, interestTagMatch i tag)) t = true :=
    decide_eq_true h
  simp [List.countP_cons, ht]

/-- C9 witness: appending the tag `videogaming`, matched by the interest
`gaming` as a substring, to the unit-test item. -/
theorem interestMatch_monotone_under_matching_tag_append_witness :
    (∃ i ∈ techParams.interests, interestTagMatch i "videogaming") ∧
    (calculateScore gamingKeyboard techParams none).interestMatch ≤
      (calculateScore { gamingKeyboard with tags := gamingKeyboard.tags ++ ["videogaming"] }
        techParams none).interestMatch :=
  ⟨by decide,
    interestMatch_monotone_under_matching_tag_append gamingKeyboard techParams none
      "videogaming" (by decide)⟩

/-- C8: enrichment never surfaces an error.  With the text-generation
client unconfigured the batch returns the empty map without consulting
the oracle; with it configured, failing one item's generation changes no
other item's entry and leaves only the failed item's explanation absent;
and the ranked products, totals, breakdowns and their order do not depend
on the generation oracle at all. -/
theorem enrichment_failures_isolated (gen : GenOracle) (items : List AIBatchItem)
    (lim : Nat) (bad : String) :
    (∀ id, generateBatchExplanations false gen items lim id = none) ∧
    (∀ id, id ≠ bad →
      generateBatchExplanations true (failAt bad gen) items lim id =
        generateBatchExplanations true gen items lim id) ∧
    generateBatchExplanations true (failAt bad gen) items lim bad = none ∧
    (∀ (candidates : List Product) (params : RecommendationParams) (c : Option String)
        (enabled : Bool) (gen₂ : GenOracle) (limit : Nat),
      stripAI (getRecommendations candidates params c enabled gen limit) =
        stripAI (getRecommendations candidates params c enabled gen₂ limit)) := by
  refine ⟨fun id => rfl, ?_, ?_, ?_⟩
  · intro id hid
    exact foldl_batchInsert_local gen bad (items.take lim) _ _ (fun _ _ => rfl) id hid
  · exact foldl_batchInsert_fail_bad gen bad (items.take lim) _ rfl
  · intro candidates params c enabled gen₂ limit
    rw [stripAI_getRecommendations, stripAI_getRecommendations]

/-- C8 witness: two batch items; failing the second one's generation
leaves the first one's explanation in place and only the second absent. -/
theorem enrichment_failures_isolated_witness :
    ((∀ id, generateBatchExplanations false genEcho twoBatchItems 5 id = none) ∧
      (∀ id, id ≠ "x2" →
        generateBatchExplanations true (failAt "x2" genEcho) twoBatchItems 5 id =
          generateBatchExplanations true genEcho twoBatchItems 5 id) ∧
      generateBatchExplanations true (failAt "x2" genEcho) twoBatchItems 5 "x2" = none ∧
      (∀ (candidates : List Product) (params : RecommendationParams) (c : Option String)
          (enabled : Bool) (gen₂ : GenOracle) (limit : Nat),
        stripAI (getRecommendations candidates params c enabled genEcho limit) =
          stripAI (getRecommendations candidates params c enabled gen₂ limit))) ∧
    generateBatchExplanations true (failAt "x2" genEcho) twoBatchItems 5 "x1" =
      some "for x1" :=
  ⟨enrichment_failures_isolated genEcho twoBatchItems 5 "x2", by decide⟩

/-- C10: the optional age field never influences scoring or ranking —
two requests that agree on everything except `age` get identical score
breakdowns from `calculateScore` and an identical ranked list of
(product, total, breakdown) triples from the pipeline. -/
theorem age_field_never_influences_scoring
    (p : Product) (candidates : List Product) (r₁ r₂ : RecommendationParams)
    (c : Option String) (enabled : Bool) (gen : GenOracle) (limit : Nat)
    (hu : r₁.userId = r₂.userId) (hb : r₁.budget = r₂.budget)
    (hi : r₁.interests = r₂.interests) (ho : r₁.occasion = r₂.occasion) :
    calculateScore p r₁ c = calculateScore p r₂ c ∧
    stripAI (getRecommendations candidates r₁ c enabled gen limit) =
      stripAI (getRecommendations candidates r₂ c enabled gen limit) := by
  obtain ⟨u₁, b₁, i₁, a₁, o₁⟩ := r₁
  obtain ⟨u₂, b₂, i₂, a₂, o₂⟩ := r₂
  simp only at hu hb hi ho
  subst hu hb hi ho
  refine ⟨rfl, ?_⟩
  rw [stripAI_getRecommendations, stripAI_getRecommendations]
  rfl

/-- C10 witness: the unit-test request with and without `age = 25`. -/
theorem age_field_never_influences_scoring_witness :
    calculateScore gamingKeyboard techParams none =
      calculateScore gamingKeyboard { techParams with age := some 25 } none ∧
    stripAI (getRecommendations [gamingKeyboard] techParams none false genNone 20) =
      stripAI (getRecommendations [gamingKeyboard] { techParams with age := some 25 } none
        false genNone 20) :=
  age_field_never_influences_scoring gamingKeyboard [gamingKeyboard] techParams
    { techParams with age := some 25 } none false genNone 20 rfl rfl rfl rfl

/-- C3 (spec-modelled): the justification generator is deterministic
string assembly — when no component fired it emits the generic
"{title} is a popular choice in the {category} category." fallback, and
otherwise it joins the fired components' clauses with commas into
"{title} is recommended because it {clause1}, {clause2}, ...". -/
theorem explain_joins_fired_clauses (item : Product) (request : RecommendationRequest)
    (breakdown : SpecScoreBreakdown) :
    (specFiredClauses item request breakdown = [] →
      explain item request breakdown =
        item.title ++ " is a popular choice in the " ++ item.category ++ " category.") ∧
    (specFiredClauses item request breakdown ≠ [] →
      explain item request breakdown =
        item.title ++ " is recommended because it " ++
          String.intercalate ", " (specFiredClauses item request breakdown)) := by
  unfold explain specFiredClauses
  cases hocc : request.occasion <;> cases hrel : request.relationship <;>
    by_cases h₁ : breakdown.interestMatch > 0 <;>
    by_cases h₂ : breakdown.budgetOptimization > 0 <;>
    by_cases h₃ : breakdown.occasionMatch > 0 <;>
    by_cases h₄ : breakdown.relationshipMatch > 0 <;>
    by_cases h₅ : breakdown.learningBoost > 0 <;>
    simp [h₁, h₂, h₃, h₄, h₅, List.filterMap_cons]

/-- C3 witness: the README's sample scenario — interest and budget
components fired — yields the comma-joined clause string of the README's
`reason` field. -/
theorem explain_joins_fired_clauses_witness :
    specFiredClauses gamingKeyboardRGB rgbRequest ⟨20, 5, 0, 0, 0⟩ ≠ [] ∧
    explain gamingKeyboardRGB rgbRequest ⟨20, 5, 0, 0, 0⟩ =
      "Gaming Keyboard RGB is recommended because it matches interests: gaming, tech, great value within budget" :=
  ⟨by decide, by
    rw [(explain_joins_fired_clauses gamingKeyboardRGB rgbRequest ⟨20, 5, 0, 0, 0⟩).2
      (by decide)]
    decide⟩

/-- C7 (amended): for a user with at least one interaction event, all of
whose events resolve to catalog items and at least one of whose resolved
items carries tags, the diagnostics ranking-explanation string mentions
the top category's +15 boost, the number of top-listed categories — the
count of distinct categories represented, capped at 5 — a sample of the
top 3 tags, and the total event count. -/
theorem diagnostics_explanation_mentions_template_fields
    (userId : String) (events : List InteractionEvent) (products : List Product)
    (h₁ : events ≠ [])
    (h₂ : ∀ e ∈ events, (productById products e.productId).isSome)
    (h₃ : ∃ e ∈ events, ∃ p, productById products e.productId = some p ∧ p.tags ≠ []) :
    (getUserDiagnostics userId events products).topCategories ≠ [] ∧
    (getUserDiagnostics userId events products).topCategories.length =
      min 5 (resolvedCategories events products).toFinset.card ∧
    jsIncludes (getUserDiagnostics userId events products).rankingExplanation
      ("• Products in \"" ++
        ((getUserDiagnostics userId events products).topCategories.headD ⟨"", 0⟩).category ++
        "\" category receive a +15 point boost") = true ∧
    jsIncludes (getUserDiagnostics userId events products).rankingExplanation
      ("• You have shown interest in " ++
        toString (getUserDiagnostics userId events products).topCategories.length ++
        " different categories") = true ∧
    jsIncludes (getUserDiagnostics userId events products).rankingExplanation
      ("• Products with tags like \"" ++
        String.intercalate "\", \""
          ((getUserDiagnostics userId events products).topBoostedTags.take 3) ++
        "\" are prioritized") = true ∧
    jsIncludes (getUserDiagnostics userId events products).rankingExplanation
      ("• Total of " ++ toString (getUserDiagnostics userId events products).totalEvents ++
        " interactions analyzed") = true := by
  cases events with
  | nil => exact absurd rfl h₁
  | cons e rest =>
    have hcc_ne : categoryCounts (e :: rest) products ≠ [] := by
      obtain ⟨p, hp⟩ := Option.isSome_iff_exists.mp (h₂ e (List.mem_cons_self e rest))
      have hmem : p.category ∈ (categoryCounts (e :: rest) products).map Prod.fst := by
        rw [mem_categoryCounts_map_fst]
        simp [resolvedCategories, List.filterMap_cons, hp]
      intro hnil
      rw [hnil] at hmem
      simp at hmem
    have htagc_ne : tagCounts (e :: rest) products ≠ [] := by
      obtain ⟨e', he', p, hp', htagsp⟩ := h₃
      obtain ⟨t, ht⟩ := List.exists_mem_of_ne_nil p.tags htagsp
      have hmem : t ∈ (tagCounts (e :: rest) products).map Prod.fst := by
        rw [mem_tagCounts_map_fst]
        exact ⟨e', he', p, hp', ht⟩
      intro hnil
      rw [hnil] at hmem
      simp at hmem
    have htc : (getUserDiagnostics userId (e :: rest) products).topCategories =
        (sortByKeyDesc (fun s => s.interactionCount)
          ((categoryCounts (e :: rest) products).map
            (fun kv => CategoryStat.mk kv.1 kv.2))).take 5 := rfl
    have htc_len : (getUserDiagnostics userId (e :: rest) products).topCategories.length =
        min 5 (categoryCounts (e :: rest) products).length := by
      rw [htc, List.length_take, length_sortByKeyDesc, List.length_map]
    have htc_ne : (getUserDiagnostics userId (e :: rest) products).topCategories ≠ [] := by
      rw [← List.length_pos, htc_len]
      have hpos : 0 < (categoryCounts (e :: rest) products).length :=
        List.length_pos.mpr hcc_ne
      omega
    obtain ⟨top, tcrest, htop⟩ :
        ∃ top tcrest, (getUserDiagnostics userId (e :: rest) products).topCategories =
          top :: tcrest := by
      cases h : (getUserDiagnostics userId (e :: rest) products).topCategories with
      | nil => exact absurd h htc_ne
      | cons a b => exact ⟨a, b, rfl⟩
    have htg_def : (getUserDiagnostics userId (e :: rest) products).topBoostedTags =
        ((sortByKeyDesc (fun kv => kv.2) (tagCounts (e :: rest) products)).take 10).map
          (fun kv => kv.1) := rfl
    have htg_ne : (getUserDiagnostics userId (e :: rest) products).topBoostedTags ≠ [] := by
      rw [← List.length_pos, htg_def, List.length_map, List.length_take,
        length_sortByKeyDesc]
      have hpos : 0 < (tagCounts (e :: rest) products).length :=
        List.length_pos.mpr htagc_ne
      omega
    obtain ⟨tg, tgrest, htg⟩ :
        ∃ tg tgrest, (getUserDiagnostics userId (e :: rest) products).topBoostedTags =
          tg :: tgrest := by
      cases h : (getUserDiagnostics userId (e :: rest) products).topBoostedTags with
      | nil => exact absurd h htg_ne
      | cons a b => exact ⟨a, b, rfl⟩
    have hsc : (sortByKeyDesc (fun s => s.interactionCount)
        ((categoryCounts (e :: rest) products).map
          (fun kv => CategoryStat.mk kv.1 kv.2))).take 5 = top :: tcrest :=
      htc.symm.trans htop
    have hsg : ((sortByKeyDesc (fun kv => kv.2) (tagCounts (e :: rest) products)).take 10).map
        (fun kv => kv.1) = tg :: tgrest :=
      htg_def.symm.trans htg
    have hexpl : (getUserDiagnostics userId (e :: rest) products).rankingExplanation =
        "Based on your interaction history:\n" ++
          ("\n" ++ ("• Products in \"" ++ top.category ++
              "\" category receive a +15 point boost") ++ "\n" ++
            ("• You have shown interest in " ++ toString (top :: tcrest).length ++
              " different categories") ++ "\n") ++
          (("• Products with tags like \"" ++
            String.intercalate "\", \"" ((tg :: tgrest).take 3) ++
            "\" are prioritized") ++ "\n") ++
          ("• Total of " ++ toString (e :: rest).length ++ " interactions analyzed") := by
      simp only [getUserDiagnostics]
      rw [hsc, hsg]
    have htev : (getUserDiagnostics userId (e :: rest) products).totalEvents =
        (e :: rest).length := rfl
    refine ⟨htc_ne, ?_, ?_, ?_, ?_, ?_⟩
    · rw [htc_len, categoryCounts_length_eq_card]
    · rw [hexpl, htop, List.headD_cons]
      have hb : "Based on your interaction history:\n" ++
          ("\n" ++ ("• Products in \"" ++ top.category ++
              "\" category receive a +15 point boost") ++ "\n" ++
            ("• You have shown interest in " ++ toString (top :: tcrest).length ++
              " different categories") ++ "\n") ++
          (("• Products with tags like \"" ++
            String.intercalate "\", \"" ((tg :: tgrest).take 3) ++
            "\" are prioritized") ++ "\n") ++
          ("• Total of " ++ toString (e :: rest).length ++ " interactions analyzed") =
          ("Based on your interaction history:\n" ++ "\n") ++
            ("• Products in \"" ++ top.category ++
              "\" category receive a +15 point boost") ++
            ("\n" ++
              ("• You have shown interest in " ++ toString (top :: tcrest).length ++
                " different categories") ++ "\n" ++
              (("• Products with tags like \"" ++
                String.intercalate "\", \"" ((tg :: tgrest).take 3) ++
                "\" are prioritized") ++ "\n") ++
              ("• Total of " ++ toString (e :: rest).length ++
                " interactions analyzed")) := by
        simp only [strAppend_assoc]
      rw [hb]
      exact jsIncludes_sandwich _ _ _
    · rw [hexpl, htop]
      have hb : "Based on your interaction history:\n" ++
          ("\n" ++ ("• Products in \"" ++ top.category ++
              "\" category receive a +15 point boost") ++ "\n" ++
            ("• You have shown interest in " ++ toString (top :: tcrest).length ++
              " different categories") ++ "\n") ++
          (("• Products with tags like \"" ++
            String.intercalate "\", \"" ((tg :: tgrest).take 3) ++
            "\" are prioritized") ++ "\n") ++
          ("• Total of " ++ toString (e :: rest).length ++ " interactions analyzed") =
          ("Based on your interaction history:\n" ++ "\n" ++
            ("• Products in \"" ++ top.category ++
              "\" category receive a +15 point boost") ++ "\n") ++
            ("• You have shown interest in " ++ toString (top :: tcrest).length ++
              " different categories") ++
            ("\n" ++
              (("• Products with tags like \"" ++
                String.intercalate "\", \"" ((tg :: tgrest).take 3) ++
                "\" are prioritized") ++ "\n") ++
              ("• Total of " ++ toString (e :: rest).length ++
                " interactions analyzed")) := by
        simp only [strAppend_assoc]
      rw [hb]
      exact jsIncludes_sandwich _ _ _
    · rw [hexpl, htg]
      have hb : "Based on your interaction history:\n" ++
          ("\n" ++ ("• Products in \"" ++ top.category ++
              "\" category receive a +15 point boost") ++ "\n" ++
            ("• You have shown interest in " ++ toString (top :: tcrest).length ++
              " different categories") ++ "\n") ++
          (("• Products with tags like \"" ++
            String.intercalate "\", \"" ((tg :: tgrest).take 3) ++
            "\" are prioritized") ++ "\n") ++
          ("• Total of " ++ toString (e :: rest).length ++ " interactions analyzed") =
          ("Based on your interaction history:\n" ++ "\n" ++
            ("• Products in \"" ++ top.category ++
              "\" category receive a +15 point boost") ++ "\n" ++
            ("• You have shown interest in " ++ toString (top :: tcrest).length ++
              " different categories") ++ "\n") ++
            ("• Products with tags like \"" ++
              String.intercalate "\", \"" ((tg :: tgrest).take 3) ++
              "\" are prioritized") ++
            ("\n" ++
              ("• Total of " ++ toString (e :: rest).length ++
                " interactions analyzed")) := by
        simp only [strAppend_assoc]
      rw [hb]
      exact jsIncludes_sandwich _ _ _
    · rw [hexpl, htev]
      have hb : "Based on your interaction history:\n" ++
          ("\n" ++ ("• Products in \"" ++ top.category ++
              "\" category receive a +15 point boost") ++ "\n" ++
            ("• You have shown interest in " ++ toString (top :: tcrest).length ++
              " different categories") ++ "\n") ++
          (("• Products with tags like \"" ++
            String.intercalate "\", \"" ((tg :: tgrest).take 3) ++
            "\" are prioritized") ++ "\n") ++
          ("• Total of " ++ toString (e :: rest).length ++ " interactions analyzed") =
          ("Based on your interaction history:\n" ++ "\n" ++
            ("• Products in \"" ++ top.category ++
              "\" category receive a +15 point boost") ++ "\n" ++
            ("• You have shown interest in " ++ toString (top :: tcrest).length ++
              " different categories") ++ "\n" ++
            (("• Products with tags like \"" ++
              String.intercalate "\", \"" ((tg :: tgrest).take 3) ++
              "\" are prioritized") ++ "\n")) ++
            ("• Total of " ++ toString (e :: rest).length ++
              " interactions analyzed") := by
        simp only [strAppend_assoc]
      rw [hb]
      exact jsIncludes_append_end _ _

/-- C7 witness: one event on one tagged item — the explanation mentions
the boost for `CatW`, the single-category count, the tag sample and the
one analyzed interaction. -/
theorem diagnostics_explanation_mentions_template_fields_witness :
    singleEvent ≠ [] ∧
    ((getUserDiagnostics "u" singleEvent [singleProduct]).topCategories ≠ [] ∧
      (getUserDiagnostics "u" singleEvent [singleProduct]).topCategories.length =
        min 5 (resolvedCategories singleEvent [singleProduct]).toFinset.card ∧
      jsIncludes (getUserDiagnostics "u" singleEvent [singleProduct]).rankingExplanation
        ("• Products in \"" ++
          ((getUserDiagnostics "u" singleEvent [singleProduct]).topCategories.headD
            ⟨"", 0⟩).category ++
          "\" category receive a +15 point boost") = true ∧
      jsIncludes (getUserDiagnostics "u" singleEvent [singleProduct]).rankingExplanation
        ("• You have shown interest in " ++
          toString (getUserDiagnostics "u" singleEvent [singleProduct]).topCategories.length ++
          " different categories") = true ∧
      jsIncludes (getUserDiagnostics "u" singleEvent [singleProduct]).rankingExplanation
        ("• Products with tags like \"" ++
          String.intercalate "\", \""
            ((getUserDiagnostics "u" singleEvent [singleProduct]).topBoostedTags.take 3) ++
          "\" are prioritized") = true ∧
      jsIncludes (getUserDiagnostics "u" singleEvent [singleProduct]).rankingExplanation
        ("• Total of " ++
          toString (getUserDiagnostics "u" singleEvent [singleProduct]).totalEvents ++
          " interactions analyzed") = true) :=
  ⟨by decide,
    diagnostics_explanation_mentions_template_fields "u" singleEvent [singleProduct]
      (by decide) (by decide)
      ⟨⟨"u", "pw", "VIEW_PRODUCT"⟩, by decide, singleProduct, by decide, by decide⟩⟩

set_option maxRecDepth 10000 in
/-- C7 (counterexample to the claim as stated): seven events over six
distinct categories — the explanation reports the capped top-list size
("5 different categories") and nowhere mentions the actual distinct
count 6. -/
theorem diagnostics_distinct_category_count_counterexample :
    (resolvedCategories sevenEvents sixCategoryProducts).toFinset.card = 6 ∧
    jsIncludes (getUserDiagnostics "u" sevenEvents sixCategoryProducts).rankingExplanation
      "6" = false ∧
    jsIncludes (getUserDiagnostics "u" sevenEvents sixCategoryProducts).rankingExplanation
      "You have shown interest in 5 different categories" = true := by
  decide

end GimmieGift
